import Mathlib

/-!
Shallow embedding of the WhatsApp Web scraping subsystem of PythonApiServer
(`src/apis/whatsapp/`): the authentication check (`authentication.py`),
chat discovery (`chat_discovery.py`), message extraction (`message_reader.py`)
and the scraper orchestration layer (`whatsapp_scraper.py`).

Python dictionaries that may or may not carry a key are embedded with
`Option` fields (`none` = key absent).  Selenium DOM elements are embedded as
records carrying the outcome of the attribute probes the source performs on
them; an operation that the source wraps in a broad `try/except` is embedded
as a total function, while an exception that the source lets escape is
embedded in an `Except` result (`Except.error` = uncaught Python exception).
Times are natural numbers (seconds); Python's `a - b < c` guards on floats
agree with truncated `Nat` subtraction for the monotone clocks used here.
-/

/-- Whether `pat` occurs at the head of `s` (on character lists, so that
every proof obligation reduces by computation). -/
def charsBegins : List Char → List Char → Bool
  | _, [] => true
  | [], _ :: _ => false
  | c :: cs, d :: ds => c = d && charsBegins cs ds

/-- Whether `pat` occurs anywhere in `s`. -/
def charsContains (s pat : List Char) : Bool :=
  match s with
  | [] => charsBegins [] pat
  | _ :: rest => charsBegins s pat || charsContains rest pat

/-- Python's substring test `pat in s`. -/
def strContains (s pat : String) : Bool := charsContains s.data pat.data

/-- Python `str.lower`, on the character list. -/
def toLowerStr (s : String) : String := String.mk (s.data.map Char.toLower)

/-- Whether a character counts as whitespace for Python `str.strip`. -/
def isSpaceChar (c : Char) : Bool :=
  c = Char.ofNat 32 || c = Char.ofNat 9 || c = Char.ofNat 10 || c = Char.ofNat 13

/-- Python `str.strip()`. -/
def pyStrip (s : String) : String :=
  String.mk (((s.data.dropWhile isSpaceChar).reverse.dropWhile isSpaceChar).reverse)

/-- The single-quote character, used when mirroring Python string formatting. -/
def squote : String := String.singleton (Char.ofNat 39)

/-- Python `repr` of a list of strings, as produced by
`f"... Available chats: \x7blist(self.chat_id_cache.keys())\x7d"`. -/
def pyListRepr (names : List String) : String :=
  "[" ++ String.intercalate ", " (names.map (fun n => squote ++ n ++ squote)) ++ "]"

/-- Python `xs[-limit:] if limit else xs` (used with non-negative limits). -/
def pyTakeLast (xs : List α) (limit : Nat) : List α :=
  if limit = 0 then xs else xs.drop (xs.length - limit)

/-- Stable insertion into a sorted list: the new element lands after every
element it does not strictly precede, so equal keys keep their original
relative order, as in Python's stable `sorted`. -/
def insertSorted (le : α → α → Bool) (x : α) : List α → List α
  | [] => [x]
  | y :: ys => if le y x then y :: insertSorted le x ys else x :: y :: ys

/-- Python's stable `sorted(l, key=...)`, as a structural insertion sort. -/
def stableSortBy (le : α → α → Bool) (l : List α) : List α :=
  l.foldl (fun acc x => insertSorted le x acc) []

/-- Membership in an association list (Python `key in dict`). -/
def assocHasKey (m : List (String × α)) (k : String) : Bool :=
  m.any (fun p => p.1 = k)

/-- Python dict lookup `m[k]` / `m.get(k)` (first binding wins: assignments
with an existing key replace the value in place, so keys are unique). -/
def lookupAssoc (m : List (String × α)) (k : String) : Option α :=
  match m with
  | [] => none
  | (k', v) :: rest => if k' = k then some v else lookupAssoc rest k

/-- Python dict assignment `m[k] = v`: replaces in place when the key exists,
otherwise appends (insertion order is preserved, as in CPython dicts). -/
def insertAssoc (m : List (String × α)) (k : String) (v : α) : List (String × α) :=
  if assocHasKey m k then m.map (fun p => if p.1 = k then (k, v) else p)
  else m ++ [(k, v)]

/-! ## Page model

A `PageElem` records the outcomes of the DOM probes `authentication.py`
performs on one element: whether it is displayed (`utils.is_element_displayed`),
whether it matches one of the `AUTH_INDICATORS` selectors, whether it matches
one of the `QR_CODE_SELECTORS`, its size, and its `aria-label` attribute
(`""` when the attribute is missing, mirroring `get_attribute(...) or ""`). -/

structure PageElem where
  displayed : Bool
  matchesAuthIndicator : Bool
  matchesQrSelector : Bool
  width : Nat
  height : Nat
  ariaLabel : String
deriving Repr, DecidableEq

/-- `AuthenticationManager._is_valid_qr_code`: the element's size must be
strictly larger than 50×50. -/
def is_valid_qr_code (e : PageElem) : Bool :=
  50 < e.width && 50 < e.height

/-- `AuthenticationManager._check_strong_auth_indicators`: some element
matching an `AUTH_INDICATORS` selector is displayed. -/
def check_strong_auth_indicators (elems : List PageElem) : Bool :=
  elems.any (fun e => e.matchesAuthIndicator && e.displayed)

/-- `AuthenticationManager._check_qr_code_present`: some element matching a
`QR_CODE_SELECTORS` selector is displayed, has a plausible QR size, and its
`aria-label` contains `scan` or `qr` (case-insensitively). -/
def check_qr_code_present (elems : List PageElem) : Bool :=
  elems.any (fun e =>
    e.matchesQrSelector && e.displayed && is_valid_qr_code e &&
      (strContains (toLowerStr e.ariaLabel) "scan" || strContains (toLowerStr e.ariaLabel) "qr"))

/-! ## Message elements (`message_reader.py`)

A `MsgElem` records the outcomes of the probes `MessageReader._extract_message_data`
performs on one message-bubble element: whether extraction succeeds at all
(`extractOk = false` embeds the broadly-caught exception path returning `None`),
the text found by `_extract_message_text`'s selector cascade, the timestamp
found by `_extract_timestamp`, the verdict of `_is_message_from_me`, and the
sender name found by `_extract_sender_name` (`""` when none was found). -/

structure MsgElem where
  extractOk : Bool
  text : String
  timestamp : String
  is_from_me : Bool
  senderName : String
deriving Repr, DecidableEq

/-- One extracted message dictionary.  `is_read` is `Option Bool` because the
key is absent from freshly extracted records and only ever added by
`WhatsAppScraper._mark_messages_as_read`. -/
structure MessageRecord where
  text : String
  sender : String
  timestamp : String
  is_from_me : Bool
  message_type : String
  is_read : Option Bool
deriving Repr, DecidableEq

/-- `MessageReader._extract_message_data`: builds the record (note: no
`is_read` key), or `None` when an exception was caught. -/
def extract_message_data (e : MsgElem) : Option MessageRecord :=
  if e.extractOk then
    some { text := e.text
           sender := if e.is_from_me then "Me"
                     else if e.senderName ≠ "" then e.senderName else "Unknown"
           timestamp := e.timestamp
           is_from_me := e.is_from_me
           message_type := "text"
           is_read := none }
  else none

/-- The body of `MessageReader._extract_messages_from_opened_chat`'s loop:
keep a record only when extraction succeeded and its text is non-blank
(`if message_data and message_data.get("text", "").strip():`). -/
def extractKeep (e : MsgElem) : Option MessageRecord :=
  match extract_message_data e with
  | some m => if pyStrip m.text ≠ "" then some m else none
  | none => none

/-- `MessageReader._extract_messages_from_opened_chat`: take the last `limit`
message elements (`message_elements[-limit:] if limit else message_elements`),
then extract, silently skipping failures and blank-text elements. -/
def extract_messages_from_opened_chat (elems : List MsgElem) (limit : Nat) :
    List MessageRecord :=
  (pyTakeLast elems limit).filterMap extractKeep

/-- A chat-row DOM element, as probed by `chat_discovery.py` and later clicked
by `message_reader.py`.  `rowOk = false` embeds the per-row broadly-caught
exception in `ChatDiscovery.scan_chat_list`'s loop; `name` is the result of
`_extract_chat_info` (`"Unknown"` both when the strict `_is_chat_element`
validation fails and when info extraction fails); `clickOk = false` embeds a
raised `.click()`; `openedMsgs` are the message elements found on the page
after this chat has been opened, and `headerName` is what
`MessageReader._get_chat_name_from_header` reads there. -/
structure ChatRowElem where
  rowOk : Bool
  name : String
  unread_count : Nat
  last_activity : String
  chat_type : String
  domId : String
  clickOk : Bool
  openedMsgs : List MsgElem
  headerName : String
deriving Repr, DecidableEq

/-- The browser page as observed by one operation: liveness of the driver
(`driverAlive = false` embeds a `WebDriverException` raised by touching
`driver.current_url` / `driver.get`), the current URL, the elements probed by
the authentication checks, the chat rows found in the sidebar, and whether a
message-compose input is found after opening a chat
(`MessageReader._find_message_input`). -/
structure PageState where
  driverAlive : Bool
  current_url : String
  elements : List PageElem
  chatRows : List ChatRowElem
  composeInputFound : Bool
deriving Repr, DecidableEq

/-- The authentication manager; `hasDriver = false` embeds `self.driver` being
`None`. -/
structure AuthMgr where
  hasDriver : Bool
deriving Repr, DecidableEq

/-- `AuthenticationManager.check_authentication_status`.  Note the source only
consults the QR check when no strong indicator was found
(`if not strong_auth_found: qr_code_present = self._check_qr_code_present()`),
so `qr_code_present` stays `False` whenever a strong indicator is visible. -/
def check_authentication_status (a : AuthMgr) (p : PageState) : Bool :=
  if !a.hasDriver then false
  else if !strContains p.current_url "web.whatsapp.com" then false
  else
    let strong_auth_found := check_strong_auth_indicators p.elements
    let qr_code_present := if !strong_auth_found then check_qr_code_present p.elements else false
    strong_auth_found && !qr_code_present

/-- `MessageReader.read_messages_from_chat`'s result dictionary (the failure
branch carries no `chat_name` key and an empty message list). -/
structure ReadResult where
  success : Bool
  chat_name : Option String
  messages : List MessageRecord
deriving Repr, DecidableEq

/-- `MessageReader.read_messages_from_chat`: click the cached chat row (a
raising click is caught by the method's broad `except`, yielding a failure
dictionary), then extract up to `limit` messages from the opened chat. -/
def read_messages_from_chat (c : ChatRowElem) (limit : Nat) : ReadResult :=
  if c.clickOk then
    { success := true
      chat_name := some c.headerName
      messages := extract_messages_from_opened_chat c.openedMsgs limit }
  else { success := false, chat_name := none, messages := [] }

/-! ## Chat discovery (`chat_discovery.py`) -/

/-- One entry of `ChatDiscovery.chat_states`, as built in `scan_chat_list`. -/
structure ChatState where
  name : String
  unread_count : Nat
  last_activity : String
  dom_element : ChatRowElem
  last_scan : Nat
  has_new_messages : Bool
  chat_type : String
  order : Nat
deriving Repr, DecidableEq

/-- The chat name the scan loop skips besides `"Unknown"`
(`chat_info["name"] in ["רם שולח לעצמו דברים"]`). -/
def selfChatName : String := "רם שולח לעצמו דברים"

/-- Whether the scan loop accepts a row: its processing did not raise, and its
extracted name is neither `"Unknown"` nor the ignored self-chat name. -/
def acceptRow (e : ChatRowElem) : Bool :=
  e.rowOk && e.name ≠ "Unknown" && e.name ≠ selfChatName

/-- The `chat_states` value `scan_chat_list` builds for an accepted row. -/
def mkChatState (e : ChatRowElem) (t : Nat) (order : Nat) : ChatState :=
  { name := e.name
    unread_count := e.unread_count
    last_activity := e.last_activity
    dom_element := e
    last_scan := t
    has_new_messages := e.unread_count > 0
    chat_type := e.chat_type
    order := order }

/-- The sequence of `(chat_id, state)` assignments performed by
`scan_chat_list`'s loop, in iteration order, starting from
`valid_chat_count = count`: rejected and skipped rows advance without an
assignment, accepted rows are assigned `order = count` and increment it. -/
def scanTrace (t : Nat) (elems : List ChatRowElem) (count : Nat) :
    List (String × ChatState) :=
  match elems with
  | [] => []
  | e :: rest =>
    if acceptRow e then (e.domId, mkChatState e t count) :: scanTrace t rest (count + 1)
    else scanTrace t rest count

/-- The `new_chat_states` dictionary `scan_chat_list` ends up with: every
assignment of the trace applied to an initially empty dict. -/
def scanStates (t : Nat) (elems : List ChatRowElem) : List (String × ChatState) :=
  (scanTrace t elems 0).foldl (fun m p => insertAssoc m p.1 p.2) []

/-- `ChatDiscovery`'s mutable state. -/
structure DiscoveryState where
  chat_states : List (String × ChatState)
  last_scan_time : Nat
deriving Repr, DecidableEq

/-- `ChatDiscovery.scan_interval` (seconds). -/
def scan_interval : Nat := 30

/-- `ChatDiscovery.scan_chat_list`.  Within `scan_interval` of the previous
completed scan it returns the stored mapping untouched, before any driver
access.  Otherwise it touches the driver (a dead driver raises, embedded as
`Except.error`), rebuilds the mapping from the current rows only, and stores
it together with the scan time.  The returned `Bool` records whether the page
was interacted with. -/
def scan_chat_list (s : DiscoveryState) (p : PageState) (now : Nat) :
    Except String (DiscoveryState × Bool) :=
  if now - s.last_scan_time < scan_interval then Except.ok (s, false)
  else if !p.driverAlive then Except.error "WebDriverException"
  else Except.ok ({ chat_states := scanStates now p.chatRows, last_scan_time := now }, true)

/-! ## Scraper orchestration (`whatsapp_scraper.py`) -/

/-- One entry of `WhatsAppScraper.chat_id_cache`. -/
structure CacheEntry where
  dom_element : ChatRowElem
  last_updated : Nat
  unread_count : Nat
  last_message : String
  order : Nat
deriving Repr, DecidableEq

/-- `WhatsAppScraper`'s state relevant to the claims: the lazily created
authentication manager (`none` before `start_session` succeeds in building
it), the discovery engine's state, the chat-id cache and its refresh stamp. -/
structure Scraper where
  auth_manager : Option AuthMgr
  discovery : DiscoveryState
  chat_id_cache : List (String × CacheEntry)
  last_cache_update : Nat
deriving Repr, DecidableEq

/-- `WhatsAppScraper.cache_update_interval` (seconds). -/
def cache_update_interval : Nat := 5

/-- The cache entry `_update_chat_cache` builds from one scanned chat state
(`last_message` defaults to `""`: scan states carry no such key). -/
def mkCacheEntry (st : ChatState) (now : Nat) : CacheEntry :=
  { dom_element := st.dom_element
    last_updated := now
    unread_count := st.unread_count
    last_message := ""
    order := st.order }

/-- The cache `_update_chat_cache` builds from a scan result: the states
sorted by `order` (stable), each non-`"Unknown"` one inserted under its
chat name. -/
def buildCacheFromStates (states : List (String × ChatState)) (now : Nat) :
    List (String × CacheEntry) :=
  (stableSortBy (fun a b => a.2.order ≤ b.2.order) states).foldl
    (fun c p => if p.2.name ≠ "Unknown" then insertAssoc c p.2.name (mkCacheEntry p.2 now) else c)
    []

/-- `WhatsAppScraper._update_chat_cache`: run a discovery scan; on success
clear and rebuild `chat_id_cache` from the scanned states; a raising scan is
caught by the method's broad `except` and leaves both the cache and the
discovery state untouched (the error is only logged). -/
def update_chat_cache (s : Scraper) (p : PageState) (now : Nat) : Scraper :=
  match scan_chat_list s.discovery p now with
  | Except.error _ => s
  | Except.ok (d', _) =>
    { s with discovery := d', chat_id_cache := buildCacheFromStates d'.chat_states now }

/-- `WhatsAppScraper._update_chat_cache_if_needed`: refresh only when the
cache is older than `cache_update_interval`, then stamp the refresh time
(stamped even when the inner scan failed, since `_update_chat_cache` swallows
the error). -/
def update_chat_cache_if_needed (s : Scraper) (p : PageState) (now : Nat) : Scraper :=
  if now - s.last_cache_update > cache_update_interval then
    { update_chat_cache s p now with last_cache_update := now }
  else s

/-- `WhatsAppScraper._force_update_chat_cache`: unconditional refresh plus
stamp. -/
def force_update_chat_cache (s : Scraper) (p : PageState) (now : Nat) : Scraper :=
  { update_chat_cache s p now with last_cache_update := now }

/-- The result dictionaries the scraper's public operations return.  Every
field is optional because the source builds dictionaries of differing shapes
(e.g. the not-authenticated payload is exactly `\x7b"error": ...\x7d`, with no
`success` key). -/
structure ApiResult where
  success : Option Bool
  error : Option String
  messages : Option (List MessageRecord)
  chat_name : Option String
  count : Option Nat
  status : Option String
  message : Option String
  text : Option String
deriving Repr, DecidableEq

/-- The all-absent dictionary, for building concrete results field by field. -/
def emptyResult : ApiResult :=
  { success := none, error := none, messages := none, chat_name := none
    count := none, status := none, message := none, text := none }

/-- The `\x7b"error": "Not authenticated. Please scan QR code first."\x7d`
payload returned by `get_messages` and `send_message` when the authoritative
check fails. -/
def notAuthenticatedResult : ApiResult :=
  { emptyResult with error := some "Not authenticated. Please scan QR code first." }

/-- `WhatsAppScraper._format_message_response`. -/
def format_message_response (msgs : List MessageRecord) (chat_name : Option String)
    (status : String) : ApiResult :=
  { emptyResult with
    success := some true
    messages := some msgs
    chat_name := chat_name
    count := some msgs.length
    status := some status }

/-- `WhatsAppScraper._filter_messages_by_read_status`:
`None` keeps everything, `True` keeps records whose `.get("is_read", True)`
is falsy, `False` keeps records whose `.get("is_read", True)` is truthy. -/
def filter_messages_by_read_status (msgs : List MessageRecord) (unread : Option Bool) :
    List MessageRecord :=
  match unread with
  | none => msgs
  | some true => msgs.filter (fun m => !(m.is_read.getD true))
  | some false => msgs.filter (fun m => m.is_read.getD true)

/-- `WhatsAppScraper._mark_messages_as_read` on one record: sets the
`is_read` key to `True` (the source mutates the returned dictionaries in
place, so the caller's result list carries the updated records). -/
def markMessageRead (m : MessageRecord) : MessageRecord :=
  { m with is_read := some true }

/-- Python truthiness of an optional-string argument. -/
def truthyStr : Option String → Bool
  | some s => s ≠ ""
  | none => false

/-- `WhatsAppScraper._determine_target_chat`: an explicit (truthy) `chat`
wins; otherwise a truthy `contact` is matched case-insensitively as a
substring against cached names, skipping names containing `"group"`; first
match in cache (insertion) order wins. -/
def determine_target_chat (cache : List (String × CacheEntry))
    (chat contact : Option String) : Option String :=
  if truthyStr chat then chat
  else if truthyStr contact then
    match contact with
    | some c =>
      (cache.find? (fun p =>
        strContains (toLowerStr p.1) (toLowerStr c) &&
          !strContains (toLowerStr p.1) "group")).map Prod.fst
    | none => none
  else none

/-- `WhatsAppScraper._get_messages_from_cached_chat`. -/
def get_messages_from_cached_chat (s : Scraper) (chat_name : String) (limit : Nat)
    (unread : Option Bool) : Scraper × ApiResult :=
  match lookupAssoc s.chat_id_cache chat_name with
  | none =>
    (s, { emptyResult with
          success := some false
          error := some ("Chat " ++ squote ++ chat_name ++ squote ++ " not found in cache") })
  | some cached_data =>
    let result := read_messages_from_chat cached_data.dom_element limit
    if result.success && !result.messages.isEmpty then
      let msgs := filter_messages_by_read_status result.messages unread
      let limited_messages := pyTakeLast msgs limit
      let final := if unread = some false then limited_messages.map markMessageRead
                   else limited_messages
      (s, format_message_response final (some chat_name)
        ("Retrieved " ++ toString final.length ++ " messages from " ++ chat_name))
    else (s, format_message_response [] (some chat_name) "No messages found")

/-- `WhatsAppScraper._get_unread_messages_from_any_chat`: pick the first
cached chat with a positive unread count, read from it, keep only messages
not authored by self, apply the limit, mark the kept ones read. -/
def get_unread_messages_from_any_chat (s : Scraper) (limit : Nat) : Scraper × ApiResult :=
  match s.chat_id_cache.filter (fun p => p.2.unread_count > 0) with
  | [] => (s, format_message_response [] none "No unread messages")
  | (chat_name, cached_data) :: _ =>
    let result := read_messages_from_chat cached_data.dom_element limit
    if result.success && !result.messages.isEmpty then
      let unread_messages := result.messages.filter (fun m => !m.is_from_me)
      let limited_messages := (pyTakeLast unread_messages limit).map markMessageRead
      (s, format_message_response limited_messages (some chat_name)
        ("Retrieved " ++ toString limited_messages.length ++ " unread messages from " ++ chat_name))
    else (s, format_message_response [] (some chat_name) "No unread messages found")

/-- The chat-trying loop of `WhatsAppScraper._get_latest_messages_from_any_chat`
(the final fallback message mentions the last chat tried, mirroring the loop
variable left in scope). -/
def tryLatestChats (limit : Nat) (lastName : String) :
    List (String × CacheEntry) → ApiResult
  | [] => format_message_response [] (some lastName) "No messages found in any chat"
  | (chat_name, cached_data) :: rest =>
    let result := read_messages_from_chat cached_data.dom_element limit
    if result.success && !result.messages.isEmpty then
      format_message_response result.messages (some chat_name)
        ("Retrieved " ++ toString result.messages.length ++ " latest messages from " ++ chat_name)
    else tryLatestChats limit chat_name rest

/-- `WhatsAppScraper._get_latest_messages_from_any_chat`: force a cache
rebuild, then try cached chats in ascending `order` until one yields
messages. -/
def get_latest_messages_from_any_chat (s : Scraper) (p : PageState) (now : Nat)
    (limit : Nat) : Scraper × ApiResult :=
  let s1 := force_update_chat_cache s p now
  let sorted_chats := stableSortBy (fun a b => a.2.order ≤ b.2.order) s1.chat_id_cache
  match sorted_chats with
  | [] => (s1, format_message_response [] none "No chats found")
  | (n0, e0) :: rest => (s1, tryLatestChats limit n0 ((n0, e0) :: rest))

/-- `WhatsAppScraper.get_messages`.  The leading authentication check runs
before the `try` block, so a missing authentication manager raises an
`AttributeError` that escapes to the caller (`Except.error`); every other
path returns a dictionary. -/
def get_messages (s : Scraper) (p : PageState) (now : Nat) (limit : Nat)
    (unread : Option Bool) (chat contact : Option String) :
    Except String (Scraper × ApiResult) :=
  match s.auth_manager with
  | none => Except.error "AttributeError"
  | some a =>
    if !check_authentication_status a p then Except.ok (s, notAuthenticatedResult)
    else
      let s1 := update_chat_cache_if_needed s p now
      match determine_target_chat s1.chat_id_cache chat contact with
      | some target_chat => Except.ok (get_messages_from_cached_chat s1 target_chat limit unread)
      | none =>
        if unread = some true then Except.ok (get_unread_messages_from_any_chat s1 limit)
        else Except.ok (get_latest_messages_from_any_chat s1 p now limit)

/-- `MessageReader.send_message_to_chat`: fails when no compose input is
found, otherwise types and submits the text. -/
def send_message_to_chat (p : PageState) (message : String) : ApiResult :=
  if p.composeInputFound then
    { emptyResult with
      success := some true
      message := some "Message sent successfully"
      text := some message }
  else { emptyResult with success := some false, error := some "Message input box not found" }

/-- The error text of `send_message`'s missing-chat failure. -/
def chatNotInCacheMsg (chat_name : String) (cachedNames : List String) : String :=
  "Chat " ++ squote ++ chat_name ++ squote ++ " not found in cache. Available chats: " ++
    pyListRepr cachedNames

/-- `WhatsAppScraper.send_message`.  As in `get_messages`, the authentication
check precedes the `try` block, so a missing manager raises.  Inside the
`try`: force a cache rebuild, fail with the list of cached names when the
chat is absent, otherwise click the cached row (a raising click is caught by
the broad `except`), delegate to the writer, and force another rebuild after
a successful send. -/
def send_message (s : Scraper) (p : PageState) (now : Nat)
    (chat_name message : String) : Except String (Scraper × ApiResult) :=
  match s.auth_manager with
  | none => Except.error "AttributeError"
  | some a =>
    if !check_authentication_status a p then Except.ok (s, notAuthenticatedResult)
    else
      let s1 := force_update_chat_cache s p now
      match lookupAssoc s1.chat_id_cache chat_name with
      | none =>
        Except.ok (s1, { emptyResult with
          success := some false
          error := some (chatNotInCacheMsg chat_name (s1.chat_id_cache.map Prod.fst)) })
      | some cached_data =>
        if !cached_data.dom_element.clickOk then
          Except.ok (s1, { emptyResult with
            success := some false
            error := some "element click intercepted" })
        else
          let result := send_message_to_chat p message
          let s2 := if result.success = some true then force_update_chat_cache s1 p now else s1
          Except.ok (s2, result)

/-- The status payload of `WhatsAppScraper.get_status` /
`AuthenticationManager.get_status`, restricted to the fields the claims are
about. -/
structure StatusResult where
  service : String
  authenticated : Bool
  status : String
  error : Option String
deriving Repr, DecidableEq

/-- `WhatsAppScraper.get_status`: a structured `not_initialized` payload when
no manager exists, otherwise the manager's own (exception-free) payload. -/
def get_status (s : Scraper) (p : PageState) : StatusResult :=
  match s.auth_manager with
  | none =>
    { service := "whatsapp_personal", authenticated := false
      status := "not_initialized", error := some "Managers not initialized" }
  | some a =>
    let actual := check_authentication_status a p
    { service := "whatsapp_personal", authenticated := actual
      status := if actual then "ready" else "not_authenticated", error := none }

/-- `WhatsAppScraper.close_session` (the teardown either succeeds or its
exception is caught and reported). -/
def close_session (quitOk : Bool) : ApiResult :=
  if quitOk then { emptyResult with success := some true, message := some "Session closed" }
  else { emptyResult with success := some false, error := some "driver quit failed" }

/-! ## Result projections and concrete fixtures -/

/-- The message list carried by an operation's outcome (`[]` both for an
escaped exception and for a dictionary without a `messages` key). -/
def resultMessages : Except String (Scraper × ApiResult) → List MessageRecord
  | Except.ok (_, r) => r.messages.getD []
  | Except.error _ => []

/-- A dictionary is structured when it carries a `success` or an `error`
field. -/
def structuredResult (r : ApiResult) : Bool :=
  r.success.isSome || r.error.isSome

/-- An outcome is a structured return: no escaped exception, and the
dictionary carries a `success` or `error` field. -/
def okStructured : Except String (Scraper × ApiResult) → Bool
  | Except.ok (_, r) => structuredResult r
  | Except.error _ => false

/-- The chat-state mapping a `scan_chat_list` outcome hands back. -/
def scanReturnedStates : Except String (DiscoveryState × Bool) → List (String × ChatState)
  | Except.ok (d, _) => d.chat_states
  | Except.error _ => []

/-- Whether a `scan_chat_list` outcome touched the page (a raising scan did). -/
def scanInteracted : Except String (DiscoveryState × Bool) → Bool
  | Except.ok (_, b) => b
  | Except.error _ => true

/-- A displayed element matching an `AUTH_INDICATORS` selector. -/
def authElem : PageElem :=
  { displayed := true, matchesAuthIndicator := true, matchesQrSelector := false
    width := 200, height := 50, ariaLabel := "" }

/-- A displayed, size-plausible login-QR canvas labelled `"Scan me!"`. -/
def qrElem : PageElem :=
  { displayed := true, matchesAuthIndicator := false, matchesQrSelector := true
    width := 100, height := 100, ariaLabel := "Scan me!" }

/-- An incoming message element with non-blank text. -/
def goodMsg : MsgElem :=
  { extractOk := true, text := "hi", timestamp := "10:00"
    is_from_me := false, senderName := "Alice" }

/-- A message element whose text is blank after stripping. -/
def blankMsg : MsgElem :=
  { extractOk := true, text := "  ", timestamp := ""
    is_from_me := false, senderName := "" }

/-- A valid chat row named `"X"` whose opened chat yields one extractable
message among three message elements. -/
def rowX : ChatRowElem :=
  { rowOk := true, name := "X", unread_count := 2, last_activity := "10:00"
    chat_type := "individual", domId := "dom_x", clickOk := true
    openedMsgs := [goodMsg, blankMsg, blankMsg], headerName := "X" }

/-- An authenticated-looking page: live driver, WhatsApp URL, one strong
indicator, one chat row. -/
def authPage : PageState :=
  { driverAlive := true, current_url := "https://web.whatsapp.com/"
    elements := [authElem], chatRows := [rowX], composeInputFound := true }

/-- The same page with a strong indicator and a valid login QR visible at
once. -/
def bothPage : PageState := { authPage with elements := [authElem, qrElem] }

/-- A page showing only the login QR (not authenticated). -/
def unauthPage : PageState := { authPage with elements := [qrElem] }

/-- A page whose driver raises on access. -/
def deadPage : PageState := { authPage with driverAlive := false }

/-- The cache entry for `rowX` under name `"X"`. -/
def entryX : CacheEntry :=
  { dom_element := rowX, last_updated := 100, unread_count := 2
    last_message := "", order := 0 }

/-- A scraper with a live manager, chat `"X"` cached, and a cache fresh
enough that `get_messages` at time 100 does not refresh it. -/
def sFix : Scraper :=
  { auth_manager := some { hasDriver := true }
    discovery := { chat_states := [], last_scan_time := 100 }
    chat_id_cache := [("X", entryX)], last_cache_update := 100 }

/-- A scraper before `start_session`: no authentication manager. -/
def sNoAuthMgr : Scraper := { sFix with auth_manager := none }

/-- A discovery state that has never scanned. -/
def d0 : DiscoveryState := { chat_states := [], last_scan_time := 0 }

/-- A scraper due for a cache refresh whose discovery scan will raise
(paired with `deadPage`). -/
def sStale : Scraper :=
  { auth_manager := some { hasDriver := true }, discovery := d0
    chat_id_cache := [("X", entryX)], last_cache_update := 0 }

/-! ## Supporting lemmas -/

theorem extract_message_data_is_read (e : MsgElem) (m : MessageRecord)
    (h : extract_message_data e = some m) : m.is_read = none := by
  unfold extract_message_data at h
  by_cases he : e.extractOk <;> simp [he] at h
  exact h ▸ rfl

theorem extractKeep_is_read (e : MsgElem) (m : MessageRecord)
    (h : extractKeep e = some m) : m.is_read = none := by
  unfold extractKeep at h
  cases hd : extract_message_data e with
  | none => rw [hd] at h; exact absurd h (by simp)
  | some m' =>
    rw [hd] at h
    by_cases ht : pyStrip m'.text ≠ "" <;> simp [ht] at h
    exact h ▸ extract_message_data_is_read e m' hd

theorem extractKeep_is_from_me (e : MsgElem) (m : MessageRecord)
    (h : extractKeep e = some m) : m.is_from_me = e.is_from_me := by
  unfold extractKeep at h
  cases hd : extract_message_data e with
  | none => rw [hd] at h; exact absurd h (by simp)
  | some m' =>
    rw [hd] at h
    by_cases ht : pyStrip m'.text ≠ "" <;> simp [ht] at h
    subst h
    unfold extract_message_data at hd
    by_cases he : e.extractOk <;> simp [he] at hd
    exact hd ▸ rfl

theorem mem_extract_is_read (elems : List MsgElem) (limit : Nat) (m : MessageRecord)
    (h : m ∈ extract_messages_from_opened_chat elems limit) : m.is_read = none := by
  unfold extract_messages_from_opened_chat at h
  rcases List.mem_filterMap.mp h with ⟨e, _, he⟩
  exact extractKeep_is_read e m he

theorem filter_unread_of_extract (elems : List MsgElem) (limit : Nat) :
    filter_messages_by_read_status (extract_messages_from_opened_chat elems limit)
      (some true) = [] := by
  unfold filter_messages_by_read_status
  refine List.filter_eq_nil_iff.mpr (fun m hm => ?_)
  rw [mem_extract_is_read elems limit m hm]
  simp

theorem filter_read_of_extract (elems : List MsgElem) (limit : Nat) :
    filter_messages_by_read_status (extract_messages_from_opened_chat elems limit)
      (some false) = extract_messages_from_opened_chat elems limit := by
  unfold filter_messages_by_read_status
  refine List.filter_eq_self.mpr (fun m hm => ?_)
  rw [mem_extract_is_read elems limit m hm]
  simp

theorem pyTakeLast_length_le (l : List α) (n : Nat) (h : 0 < n) :
    (pyTakeLast l n).length ≤ n := by
  unfold pyTakeLast
  rw [if_neg (Nat.pos_iff_ne_zero.mp h)]
  rw [List.length_drop]
  omega

theorem pyTakeLast_of_length_le (l : List α) (n : Nat) (h : l.length ≤ n) :
    pyTakeLast l n = l := by
  unfold pyTakeLast
  by_cases hn : n = 0
  · rw [if_pos hn]
  · rw [if_neg hn]
    have : l.length - n = 0 := by omega
    rw [this, List.drop_zero]

theorem pyTakeLast_subset (l : List α) (n : Nat) (a : α)
    (h : a ∈ pyTakeLast l n) : a ∈ l := by
  unfold pyTakeLast at h
  by_cases hn : n = 0
  · rwa [if_pos hn] at h
  · rw [if_neg hn] at h
    exact List.drop_subset _ l h

theorem extract_length_le (elems : List MsgElem) (n : Nat) (h : 0 < n) :
    (extract_messages_from_opened_chat elems n).length ≤ n := by
  unfold extract_messages_from_opened_chat
  calc ((pyTakeLast elems n).filterMap extractKeep).length
      ≤ (pyTakeLast elems n).length := List.length_filterMap_le _ _
    _ ≤ n := pyTakeLast_length_le elems n h

theorem extract_of_length_le (elems : List MsgElem) (n : Nat) (h : elems.length ≤ n) :
    extract_messages_from_opened_chat elems n = elems.filterMap extractKeep := by
  unfold extract_messages_from_opened_chat
  rw [pyTakeLast_of_length_le elems n h]

theorem markMessageRead_is_from_me (m : MessageRecord) :
    (markMessageRead m).is_from_me = m.is_from_me := rfl

theorem structured_format (msgs : List MessageRecord) (cn : Option String) (st : String) :
    structuredResult (format_message_response msgs cn st) = true := rfl

theorem structured_tryLatest (limit : Nat) (lastName : String)
    (l : List (String × CacheEntry)) :
    structuredResult (tryLatestChats limit lastName l) = true := by
  induction l generalizing lastName with
  | nil => rfl
  | cons hd tl ih =>
    unfold tryLatestChats
    by_cases hc : (read_messages_from_chat hd.2.dom_element limit).success &&
        !(read_messages_from_chat hd.2.dom_element limit).messages.isEmpty
    · simp only [hc, if_true]; rfl
    · simp only [hc, if_false]; exact ih hd.1

theorem structured_cached (s : Scraper) (cn : String) (limit : Nat) (unread : Option Bool) :
    structuredResult (get_messages_from_cached_chat s cn limit unread).2 = true := by
  unfold get_messages_from_cached_chat
  cases lookupAssoc s.chat_id_cache cn with
  | none => rfl
  | some cached =>
    by_cases hc : (read_messages_from_chat cached.dom_element limit).success &&
        !(read_messages_from_chat cached.dom_element limit).messages.isEmpty
    · simp only [hc, if_true]; rfl
    · simp only [hc, if_false]; rfl

theorem structured_unread_any (s : Scraper) (limit : Nat) :
    structuredResult (get_unread_messages_from_any_chat s limit).2 = true := by
  unfold get_unread_messages_from_any_chat
  cases hf : s.chat_id_cache.filter (fun p => p.2.unread_count > 0) with
  | nil => rfl
  | cons hd tl =>
    by_cases hc : (read_messages_from_chat hd.2.dom_element limit).success &&
        !(read_messages_from_chat hd.2.dom_element limit).messages.isEmpty
    · simp only [hc, if_true]; rfl
    · simp only [hc, if_false]; rfl

theorem structured_latest_any (s : Scraper) (p : PageState) (now limit : Nat) :
    structuredResult (get_latest_messages_from_any_chat s p now limit).2 = true := by
  simp only [get_latest_messages_from_any_chat]
  cases hm : stableSortBy (fun a b => a.2.order ≤ b.2.order)
      (force_update_chat_cache s p now).chat_id_cache with
  | nil => simp [hm]; rfl
  | cons hd tl => simp only [hm]; exact structured_tryLatest limit hd.1 (hd :: tl)

theorem structured_send_to_chat (p : PageState) (message : String) :
    structuredResult (send_message_to_chat p message) = true := by
  unfold send_message_to_chat
  by_cases hc : p.composeInputFound <;> simp [hc] <;> rfl

/-! ## Claims -/

/-- C2, counterexample: on a page where a strong authenticated-UI indicator
and a valid login-QR element are simultaneously visible (live driver, WhatsApp
URL), `check_authentication_status` returns `true`, not the `false` the claim
asserts: the source skips the QR check entirely once a strong indicator is
found. -/
theorem c2_counterexample :
    check_strong_auth_indicators bothPage.elements = true ∧
    check_qr_code_present bothPage.elements = true ∧
    check_authentication_status { hasDriver := true } bothPage = true := by
  refine ⟨rfl, by decide, by decide⟩

/-- C2, amended: with a live driver on the WhatsApp URL,
`check_authentication_status` returns exactly the strong-indicator verdict;
the QR element is only consulted when no strong indicator is visible, so a
concurrently visible QR never flips the result to `false`. -/
theorem c2_amended (a : AuthMgr) (p : PageState)
    (hd : a.hasDriver = true)
    (hu : strContains p.current_url "web.whatsapp.com" = true) :
    check_authentication_status a p = check_strong_auth_indicators p.elements := by
  unfold check_authentication_status
  rw [hd, hu]
  cases hs : check_strong_auth_indicators p.elements <;> simp [hs]

/-- Witness for `c2_amended` at the both-visible page. -/
theorem c2_amended_witness :
    AuthMgr.hasDriver { hasDriver := true } = true ∧
    strContains bothPage.current_url "web.whatsapp.com" = true ∧
    check_authentication_status { hasDriver := true } bothPage =
      check_strong_auth_indicators bothPage.elements :=
  ⟨rfl, by decide, c2_amended { hasDriver := true } bothPage rfl (by decide)⟩

/-- C5, counterexample: the rate limit is measured from the last *completed
scan*, not from the previous call.  With `last_scan_time = 0`, a call at
`t = 29` is skipped (returning the empty stored mapping), and a second call at
`t = 31` — only 2 seconds later, well within `scan_interval` of the first —
performs a full page scan and returns a different, non-empty mapping. -/
theorem c5_counterexample :
    scan_chat_list d0 authPage 29 = Except.ok (d0, false) ∧
    31 - 29 < scan_interval ∧
    scanReturnedStates (scan_chat_list d0 authPage 29) = [] ∧
    scanReturnedStates (scan_chat_list d0 authPage 31) ≠ [] ∧
    scanInteracted (scan_chat_list d0 authPage 31) = true := by
  refine ⟨rfl, by decide, rfl, by decide, by decide⟩

/-- C5, amended: a `scan_chat_list` call within `scan_interval` of the
previous *completed scan* returns the stored mapping unchanged and performs
no page interaction (the result does not depend on the page at all). -/
theorem c5_amended (s : DiscoveryState) (p : PageState) (now : Nat)
    (h : now - s.last_scan_time < scan_interval) :
    scan_chat_list s p now = Except.ok (s, false) := by
  unfold scan_chat_list
  rw [if_pos h]

/-- Witness for `c5_amended` at a concrete rate-limited call. -/
theorem c5_amended_witness :
    29 - d0.last_scan_time < scan_interval ∧
    scan_chat_list d0 authPage 29 = Except.ok (d0, false) :=
  ⟨by decide, c5_amended d0 authPage 29 (by decide)⟩

/-- The orders assigned along a scan loop started at `valid_chat_count = k`
are `k, k+1, ...`. -/
theorem scanTrace_orders (t : Nat) (elems : List ChatRowElem) (k : Nat) :
    (scanTrace t elems k).map (fun p => p.2.order) =
      List.range' k (scanTrace t elems k).length := by
  induction elems generalizing k with
  | nil => rfl
  | cons e rest ih =>
    unfold scanTrace
    by_cases ha : acceptRow e
    · simp only [ha, if_true, List.map_cons, List.length_cons]
      rw [List.range'_succ]
      exact congrArg (List.cons k) (ih (k + 1))
    · simp only [ha, if_false]
      exact ih k

/-- C8: in every scan cycle, the `order` values assigned to the accepted
(validator-passing, non-skipped) chat rows — in assignment order — are exactly
`0, 1, 2, ...` with no gaps, however many rows were rejected or skipped
before or between them. -/
theorem c8 (t : Nat) (elems : List ChatRowElem) :
    (scanTrace t elems 0).map (fun p => p.2.order) =
      List.range (scanTrace t elems 0).length := by
  rw [List.range_eq_range' (scanTrace t elems 0).length]
  exact scanTrace_orders t elems 0

/-- C9: a completed scan (past the rate limit, live driver) stores and
returns a mapping computed from the current page rows alone — `scanStates now
p.chatRows` mentions no prior state — and `_update_chat_cache` then replaces
the whole chat-id cache with one built from that mapping alone, whatever the
previous cache held. -/
theorem c9 (d : DiscoveryState) (p : PageState) (now : Nat)
    (hdue : scan_interval ≤ now - d.last_scan_time)
    (halive : p.driverAlive = true) :
    scan_chat_list d p now =
      Except.ok ({ chat_states := scanStates now p.chatRows, last_scan_time := now }, true) ∧
    ∀ (am : Option AuthMgr) (cache : List (String × CacheEntry)) (lcu : Nat),
      update_chat_cache
          { auth_manager := am, discovery := d, chat_id_cache := cache
            last_cache_update := lcu } p now =
        { auth_manager := am
          discovery := { chat_states := scanStates now p.chatRows, last_scan_time := now }
          chat_id_cache := buildCacheFromStates (scanStates now p.chatRows) now
          last_cache_update := lcu } := by
  have hscan : scan_chat_list d p now =
      Except.ok ({ chat_states := scanStates now p.chatRows, last_scan_time := now }, true) := by
    unfold scan_chat_list
    rw [if_neg (by omega), halive]
    rfl
  refine ⟨hscan, fun am cache lcu => ?_⟩
  have hd : (Scraper.mk am d cache lcu).discovery = d := rfl
  unfold update_chat_cache
  rw [hd, hscan]

/-- Witness for `c9` at a concrete due scan. -/
theorem c9_witness :
    scan_interval ≤ 31 - d0.last_scan_time ∧
    scan_chat_list d0 authPage 31 =
      Except.ok ({ chat_states := scanStates 31 authPage.chatRows, last_scan_time := 31 }, true) :=
  ⟨by decide, (c9 d0 authPage 31 (by decide) rfl).1⟩

/-- C10: when the discovery scan raises during a due cache refresh, the
refresh leaves `chat_id_cache` (and the discovery state) exactly as they were,
swallows the error (the refresh returns a state, not an exception), and still
advances the refresh stamp to `now`, so no further refresh happens until
`cache_update_interval` elapses again. -/
theorem c10 (s : Scraper) (p : PageState) (now : Nat) (e : String)
    (hraise : scan_chat_list s.discovery p now = Except.error e)
    (hdue : cache_update_interval < now - s.last_cache_update) :
    (update_chat_cache_if_needed s p now).chat_id_cache = s.chat_id_cache ∧
    (update_chat_cache_if_needed s p now).discovery = s.discovery ∧
    (update_chat_cache_if_needed s p now).auth_manager = s.auth_manager ∧
    (update_chat_cache_if_needed s p now).last_cache_update = now ∧
    ∀ (p2 : PageState) (t : Nat), t - now ≤ cache_update_interval →
      update_chat_cache_if_needed (update_chat_cache_if_needed s p now) p2 t =
        update_chat_cache_if_needed s p now := by
  have hup : update_chat_cache s p now = s := by
    unfold update_chat_cache
    rw [hraise]
  have h1 : update_chat_cache_if_needed s p now = { s with last_cache_update := now } := by
    unfold update_chat_cache_if_needed
    rw [if_pos hdue, hup]
  rw [h1]
  refine ⟨rfl, rfl, rfl, rfl, fun p2 t ht => ?_⟩
  unfold update_chat_cache_if_needed
  rw [if_neg (by simp only []; omega)]

/-- Witness for `c10`: a due refresh whose scan raises on a dead driver. -/
theorem c10_witness :
    scan_chat_list sStale.discovery deadPage 31 = Except.error "WebDriverException" ∧
    cache_update_interval < 31 - sStale.last_cache_update ∧
    (update_chat_cache_if_needed sStale deadPage 31).chat_id_cache = sStale.chat_id_cache ∧
    (update_chat_cache_if_needed sStale deadPage 31).last_cache_update = 31 := by
  have h := c10 sStale deadPage 31 "WebDriverException" rfl (by decide)
  exact ⟨rfl, by decide, h.1, h.2.2.2.1⟩

theorem pyTakeLast_nil (n : Nat) : pyTakeLast ([] : List α) n = [] := by
  unfold pyTakeLast
  by_cases h : n = 0 <;> simp [h]

theorem pyTakeLast_extract (elems : List MsgElem) (limit : Nat) :
    pyTakeLast (extract_messages_from_opened_chat elems limit) limit =
      extract_messages_from_opened_chat elems limit := by
  by_cases h : limit = 0
  · subst h; simp [pyTakeLast]
  · exact pyTakeLast_of_length_le _ _ (extract_length_le elems limit (Nat.pos_of_ne_zero h))

theorem read_messages_clickOk (c : ChatRowElem) (limit : Nat) (h : c.clickOk = true) :
    read_messages_from_chat c limit =
      { success := true, chat_name := some c.headerName
        messages := extract_messages_from_opened_chat c.openedMsgs limit } := by
  unfold read_messages_from_chat
  rw [h]
  simp

theorem read_messages_clickFail (c : ChatRowElem) (limit : Nat) (h : c.clickOk = false) :
    read_messages_from_chat c limit = { success := false, chat_name := none, messages := [] } := by
  unfold read_messages_from_chat
  rw [h]
  simp

/-- With `unread=True`, a cached-chat read always yields an empty message
list: extracted records carry no `is_read` key, so the unread-only filter
(`not msg.get("is_read", True)`) rejects every one of them. -/
theorem cached_unread_nil (s' : Scraper) (X : String) (limit : Nat) :
    (get_messages_from_cached_chat s' X limit (some true)).2.messages.getD [] = [] := by
  unfold get_messages_from_cached_chat
  cases hl : lookupAssoc s'.chat_id_cache X with
  | none => rfl
  | some entry =>
    by_cases hc : (read_messages_from_chat entry.dom_element limit).success &&
        !(read_messages_from_chat entry.dom_element limit).messages.isEmpty
    · simp only [hc, if_true]
      cases hck : entry.dom_element.clickOk
      · rw [read_messages_clickFail entry.dom_element limit hck] at hc
        simp at hc
      · rw [read_messages_clickOk entry.dom_element limit hck] at hc ⊢
        simp only [filter_unread_of_extract, pyTakeLast_nil]
        simp [format_message_response]
    · simp only [hc, if_false]
      rfl

/-- Every message the any-chat unread path returns fails the from-me test. -/
theorem unread_any_not_from_me (s' : Scraper) (limit : Nat) :
    ((get_unread_messages_from_any_chat s' limit).2.messages.getD []).all
      (fun m => !m.is_from_me) = true := by
  unfold get_unread_messages_from_any_chat
  cases hf : s'.chat_id_cache.filter (fun p => p.2.unread_count > 0) with
  | nil => rfl
  | cons hd tl =>
    by_cases hc : (read_messages_from_chat hd.2.dom_element limit).success &&
        !(read_messages_from_chat hd.2.dom_element limit).messages.isEmpty
    · simp only [hc, if_true, format_message_response]
      rw [List.all_eq_true]
      intro m hm
      simp only [Option.getD_some] at hm
      rcases List.mem_map.mp hm with ⟨m', hm', rfl⟩
      have hmem := pyTakeLast_subset _ _ _ hm'
      have hnotme := (List.mem_filter.mp hmem).2
      simpa [markMessageRead_is_from_me] using hnotme
    · simp only [hc, if_false]
      rfl

/-- C3: `get_messages(unread=True)` — with or without an explicit chat or
contact target — never returns a record with `is_from_me == true`: the
any-chat path filters on the from-me flag, and the explicit-chat path filters
on the (never present) `is_read` key, which leaves nothing at all. -/
theorem c3 (s : Scraper) (p : PageState) (now limit : Nat) (chat contact : Option String) :
    (resultMessages (get_messages s p now limit (some true) chat contact)).all
      (fun m => !m.is_from_me) = true := by
  unfold get_messages
  cases hm : s.auth_manager with
  | none => rfl
  | some a =>
    by_cases hauth : check_authentication_status a p
    · simp only [hauth, Bool.not_true, Bool.false_eq_true, if_false]
      cases hdt : determine_target_chat
          (update_chat_cache_if_needed s p now).chat_id_cache chat contact with
      | some target =>
        simp only [hdt]
        show ((get_messages_from_cached_chat
            (update_chat_cache_if_needed s p now) target limit (some true)).2.messages.getD []).all
            (fun m => !m.is_from_me) = true
        rw [cached_unread_nil]
        rfl
      | none =>
        simp only [hdt]
        show ((get_unread_messages_from_any_chat
            (update_chat_cache_if_needed s p now) limit).2.messages.getD []).all
            (fun m => !m.is_from_me) = true
        exact unread_any_not_from_me _ limit
    · simp only [Bool.not_eq_true] at hauth
      simp [hauth, resultMessages, notAuthenticatedResult, emptyResult]

/-- C6: sending to a chat name absent from the cache that `send_message` has
just force-rebuilt fails with `success=false` and an error string listing the
currently cached names, as a structured return (never an escaped
exception). -/
theorem c6 (s : Scraper) (p : PageState) (now : Nat) (a : AuthMgr)
    (chat_name message : String)
    (hm : s.auth_manager = some a)
    (hauth : check_authentication_status a p = true)
    (habsent : lookupAssoc (force_update_chat_cache s p now).chat_id_cache chat_name = none) :
    send_message s p now chat_name message =
      Except.ok (force_update_chat_cache s p now,
        { emptyResult with
          success := some false
          error := some (chatNotInCacheMsg chat_name
            ((force_update_chat_cache s p now).chat_id_cache.map Prod.fst)) }) := by
  unfold send_message
  rw [hm]
  simp only [hauth, Bool.not_true, Bool.false_eq_true, if_false, habsent]

/-- Witness for `c6`: at time 100 the forced rebuild of `sFix`'s cache runs a
rate-limited scan that hands back the stored empty mapping, so the rebuilt
cache is empty and `"Nobody"` is absent; the error lists the (empty) cached
names. -/
theorem c6_witness :
    sFix.auth_manager = some { hasDriver := true } ∧
    check_authentication_status { hasDriver := true } authPage = true ∧
    lookupAssoc (force_update_chat_cache sFix authPage 100).chat_id_cache "Nobody" = none ∧
    send_message sFix authPage 100 "Nobody" "hello" =
      Except.ok (force_update_chat_cache sFix authPage 100,
        { emptyResult with
          success := some false
          error := some (chatNotInCacheMsg "Nobody"
            ((force_update_chat_cache sFix authPage 100).chat_id_cache.map Prod.fst)) }) :=
  ⟨rfl, by decide, by decide,
    c6 sFix authPage 100 { hasDriver := true } "Nobody" "hello" rfl (by decide) (by decide)⟩

/-- Reduction of `get_messages` for an explicit non-empty `chat` argument:
the authoritative check passes, the cache is refreshed if stale, and the
explicit name wins target resolution. -/
theorem get_messages_explicit (s : Scraper) (p : PageState) (now limit : Nat)
    (unread : Option Bool) (a : AuthMgr) (X : String)
    (hm : s.auth_manager = some a)
    (hauth : check_authentication_status a p = true)
    (hX : X ≠ "") :
    get_messages s p now limit unread (some X) none =
      Except.ok (get_messages_from_cached_chat (update_chat_cache_if_needed s p now)
        X limit unread) := by
  have hdt : ∀ cache, determine_target_chat cache (some X) none = some X := by
    intro cache
    unfold determine_target_chat truthyStr
    simp [hX]
  unfold get_messages
  rw [hm]
  simp only [hauth, Bool.not_true, Bool.false_eq_true, if_false, hdt]

theorem cached_true_result (s' : Scraper) (X : String) (limit : Nat) (entry : CacheEntry)
    (hlook : lookupAssoc s'.chat_id_cache X = some entry)
    (hclick : entry.dom_element.clickOk = true) :
    (get_messages_from_cached_chat s' X limit (some true)).2.success = some true ∧
    (get_messages_from_cached_chat s' X limit (some true)).2.messages = some [] := by
  unfold get_messages_from_cached_chat
  simp only [hlook]
  rw [read_messages_clickOk _ _ hclick]
  by_cases he : (extract_messages_from_opened_chat entry.dom_element.openedMsgs limit).isEmpty
  · simp [he, format_message_response]
  · simp only [he, Bool.not_false, Bool.true_and, if_true, filter_unread_of_extract,
      pyTakeLast_nil]
    simp [format_message_response]

theorem cached_false_result (s' : Scraper) (X : String) (limit : Nat) (entry : CacheEntry)
    (hlook : lookupAssoc s'.chat_id_cache X = some entry)
    (hclick : entry.dom_element.clickOk = true) :
    (get_messages_from_cached_chat s' X limit (some false)).2.success = some true ∧
    (get_messages_from_cached_chat s' X limit (some false)).2.messages =
      some ((extract_messages_from_opened_chat entry.dom_element.openedMsgs limit).map
        markMessageRead) := by
  unfold get_messages_from_cached_chat
  simp only [hlook]
  rw [read_messages_clickOk _ _ hclick]
  by_cases he : (extract_messages_from_opened_chat entry.dom_element.openedMsgs limit).isEmpty
  · rw [List.isEmpty_iff] at he
    simp [he, format_message_response]
  · simp only [he, Bool.not_false, Bool.true_and, if_true, filter_read_of_extract,
      pyTakeLast_extract]
    simp [format_message_response]

theorem cached_none_result (s' : Scraper) (X : String) (limit : Nat) (entry : CacheEntry)
    (hlook : lookupAssoc s'.chat_id_cache X = some entry)
    (hclick : entry.dom_element.clickOk = true) :
    (get_messages_from_cached_chat s' X limit none).2.success = some true ∧
    (get_messages_from_cached_chat s' X limit none).2.messages =
      some (extract_messages_from_opened_chat entry.dom_element.openedMsgs limit) := by
  unfold get_messages_from_cached_chat
  simp only [hlook]
  rw [read_messages_clickOk _ _ hclick]
  by_cases he : (extract_messages_from_opened_chat entry.dom_element.openedMsgs limit).isEmpty
  · rw [List.isEmpty_iff] at he
    simp [he, format_message_response]
  · simp only [he, Bool.not_false, Bool.true_and, if_true]
    show (format_message_response (pyTakeLast (filter_messages_by_read_status _ none) limit)
      _ _).success = some true ∧ _
    simp only [filter_messages_by_read_status, pyTakeLast_extract]
    simp [format_message_response]

/-- C4: extracted message records never carry an `is_read` key, so for a
cached, clickable chat `X`, `get_messages(chat=X, unread=True)` succeeds with
an empty list (everything is filtered out as already-read), while
`unread=False` and `unread=None` both return the full extracted list —
`False` additionally stamps `is_read=True` on the returned records, and its
read-only filter removes nothing. -/
theorem c4 (s : Scraper) (p : PageState) (now limit : Nat) (X : String)
    (a : AuthMgr) (entry : CacheEntry)
    (hm : s.auth_manager = some a)
    (hauth : check_authentication_status a p = true)
    (hX : X ≠ "")
    (hlook : lookupAssoc (update_chat_cache_if_needed s p now).chat_id_cache X = some entry)
    (hclick : entry.dom_element.clickOk = true) :
    (∀ (e : MsgElem) (m : MessageRecord), extract_message_data e = some m → m.is_read = none) ∧
    (get_messages s p now limit (some true) (some X) none).map
        (fun pr => (pr.2.success, pr.2.messages)) = Except.ok (some true, some []) ∧
    (get_messages s p now limit (some false) (some X) none).map
        (fun pr => pr.2.messages) =
      Except.ok (some ((extract_messages_from_opened_chat
        entry.dom_element.openedMsgs limit).map markMessageRead)) ∧
    (get_messages s p now limit none (some X) none).map
        (fun pr => pr.2.messages) =
      Except.ok (some (extract_messages_from_opened_chat entry.dom_element.openedMsgs limit)) ∧
    filter_messages_by_read_status
        (extract_messages_from_opened_chat entry.dom_element.openedMsgs limit) (some false) =
      extract_messages_from_opened_chat entry.dom_element.openedMsgs limit := by
  refine ⟨extract_message_data_is_read, ?_, ?_, ?_, filter_read_of_extract _ _⟩
  · rw [get_messages_explicit s p now limit (some true) a X hm hauth hX]
    have h := cached_true_result (update_chat_cache_if_needed s p now) X limit entry hlook hclick
    simp [Except.map, h.1, h.2]
  · rw [get_messages_explicit s p now limit (some false) a X hm hauth hX]
    have h := cached_false_result (update_chat_cache_if_needed s p now) X limit entry hlook hclick
    simp [Except.map, h.2]
  · rw [get_messages_explicit s p now limit none a X hm hauth hX]
    have h := cached_none_result (update_chat_cache_if_needed s p now) X limit entry hlook hclick
    simp [Except.map, h.2]

/-- Witness for `c4` on the cached chat `"X"` with one extractable message. -/
theorem c4_witness :
    sFix.auth_manager = some { hasDriver := true } ∧
    lookupAssoc (update_chat_cache_if_needed sFix authPage 100).chat_id_cache "X" =
      some entryX ∧
    (get_messages sFix authPage 100 10 (some true) (some "X") none).map
        (fun pr => (pr.2.success, pr.2.messages)) = Except.ok (some true, some []) ∧
    (get_messages sFix authPage 100 10 none (some "X") none).map
        (fun pr => pr.2.messages) =
      Except.ok (some (extract_messages_from_opened_chat rowX.openedMsgs 10)) := by
  have h := c4 sFix authPage 100 10 "X" { hasDriver := true } entryX rfl (by decide)
    (by decide) (by decide) rfl
  exact ⟨rfl, by decide, h.2.1, h.2.2.2.1⟩

theorem cached_length_le (s' : Scraper) (X : String) (N : Nat) (u : Option Bool)
    (h : 0 < N) :
    ((get_messages_from_cached_chat s' X N u).2.messages.getD []).length ≤ N := by
  unfold get_messages_from_cached_chat
  cases hl : lookupAssoc s'.chat_id_cache X with
  | none => simp [emptyResult]
  | some entry =>
    by_cases hc : (read_messages_from_chat entry.dom_element N).success &&
        !(read_messages_from_chat entry.dom_element N).messages.isEmpty
    · simp only [hc, if_true, format_message_response]
      by_cases hu : u = some false <;>
        simp only [hu, if_true, if_false, Option.getD_some, List.length_map] <;>
        exact pyTakeLast_length_le _ N h
    · simp [hc, format_message_response]

theorem unread_any_length_le (s' : Scraper) (N : Nat) (h : 0 < N) :
    ((get_unread_messages_from_any_chat s' N).2.messages.getD []).length ≤ N := by
  unfold get_unread_messages_from_any_chat
  cases hf : s'.chat_id_cache.filter (fun p => p.2.unread_count > 0) with
  | nil => simp [format_message_response]
  | cons hd tl =>
    by_cases hc : (read_messages_from_chat hd.2.dom_element N).success &&
        !(read_messages_from_chat hd.2.dom_element N).messages.isEmpty
    · simp only [hc, if_true, format_message_response, Option.getD_some, List.length_map]
      exact pyTakeLast_length_le _ N h
    · simp [hc, format_message_response]

theorem tryLatest_length_le (N : Nat) (lastName : String)
    (l : List (String × CacheEntry)) (h : 0 < N) :
    ((tryLatestChats N lastName l).messages.getD []).length ≤ N := by
  induction l generalizing lastName with
  | nil => simp [tryLatestChats, format_message_response]
  | cons hd tl ih =>
    unfold tryLatestChats
    by_cases hc : (read_messages_from_chat hd.2.dom_element N).success &&
        !(read_messages_from_chat hd.2.dom_element N).messages.isEmpty
    · simp only [hc, if_true, format_message_response, Option.getD_some]
      cases hck : hd.2.dom_element.clickOk
      · rw [read_messages_clickFail hd.2.dom_element N hck] at hc
        simp at hc
      · rw [read_messages_clickOk hd.2.dom_element N hck]
        exact extract_length_le _ N h
    · simp only [hc, if_false]
      exact ih hd.1

theorem latest_any_length_le (s' : Scraper) (p : PageState) (now N : Nat) (h : 0 < N) :
    ((get_latest_messages_from_any_chat s' p now N).2.messages.getD []).length ≤ N := by
  simp only [get_latest_messages_from_any_chat]
  cases hm : stableSortBy (fun a b => a.2.order ≤ b.2.order)
      (force_update_chat_cache s' p now).chat_id_cache with
  | nil => simp [hm, format_message_response]
  | cons hd tl =>
    simp only [hm]
    exact tryLatest_length_le N hd.1 (hd :: tl) h

theorem get_messages_length_le (s : Scraper) (p : PageState) (now N : Nat)
    (unread : Option Bool) (chat contact : Option String) (h : 0 < N) :
    (resultMessages (get_messages s p now N unread chat contact)).length ≤ N := by
  unfold get_messages
  cases hm : s.auth_manager with
  | none => simp [resultMessages]
  | some a =>
    by_cases hauth : check_authentication_status a p
    · simp only [hauth, Bool.not_true, Bool.false_eq_true, if_false]
      cases hdt : determine_target_chat
          (update_chat_cache_if_needed s p now).chat_id_cache chat contact with
      | some target =>
        simp only [hdt]
        exact cached_length_le _ target N unread h
      | none =>
        simp only [hdt]
        by_cases hu : unread = some true
        · simp only [hu, if_true]
          exact unread_any_length_le _ N h
        · simp only [hu, if_false]
          exact latest_any_length_le _ p now N h
    · simp only [Bool.not_eq_true] at hauth
      simp [hauth, resultMessages, notAuthenticatedResult, emptyResult]

/-- C7, counterexample: chat `"X"`'s opened conversation holds three message
elements of which exactly one is extractable (non-blank text), i.e. fewer
than `N = 2`; yet `get_messages(limit=2, chat="X")` windows the *last two raw
elements* before dropping blanks, and returns 0 messages, not 1. -/
theorem c7_counterexample :
    (rowX.openedMsgs.filterMap extractKeep).length = 1 ∧
    (resultMessages (get_messages sFix authPage 100 2 (some false) (some "X") none)).length
      = 0 := by
  exact ⟨by decide, by decide⟩

/-- C7, amended: `get_messages(limit=N, ...)` never returns more than `N`
messages (for `N > 0`), and when a cached, clickable chat's conversation
holds at most `N` message *elements*, `get_messages(limit=N, chat=X)`
succeeds with exactly the number of extractable (non-blank, successfully
parsed) messages among them.  The original per-extractable-count phrasing
fails because the `[-limit:]` window is applied to raw elements before
blank-text filtering. -/
theorem c7_amended :
    (∀ (s : Scraper) (p : PageState) (now N : Nat) (unread : Option Bool)
        (chat contact : Option String), 0 < N →
      (resultMessages (get_messages s p now N unread chat contact)).length ≤ N) ∧
    (∀ (s : Scraper) (p : PageState) (now N : Nat) (X : String) (a : AuthMgr)
        (entry : CacheEntry),
      s.auth_manager = some a →
      check_authentication_status a p = true →
      X ≠ "" →
      lookupAssoc (update_chat_cache_if_needed s p now).chat_id_cache X = some entry →
      entry.dom_element.clickOk = true →
      entry.dom_element.openedMsgs.length ≤ N →
      (get_messages s p now N (some false) (some X) none).map
          (fun pr => (pr.2.success, (pr.2.messages.getD []).length)) =
        Except.ok (some true, (entry.dom_element.openedMsgs.filterMap extractKeep).length)) := by
  refine ⟨fun s p now N unread chat contact h =>
    get_messages_length_le s p now N unread chat contact h, ?_⟩
  intro s p now N X a entry hm hauth hX hlook hclick hlen
  rw [get_messages_explicit s p now N (some false) a X hm hauth hX]
  have h := cached_false_result (update_chat_cache_if_needed s p now) X N entry hlook hclick
  simp only [Except.map, h.1, h.2, Option.getD_some, List.length_map]
  rw [extract_of_length_le entry.dom_element.openedMsgs N hlen]

/-- Witness for `c7_amended`: the bound at `N = 2`, and the exact count at
`N = 5 ≥ 3` elements (one extractable message). -/
theorem c7_amended_witness :
    ((0:Nat) < 2 ∧
      (resultMessages (get_messages sFix authPage 100 2 (some false) (some "X") none)).length
        ≤ 2) ∧
    (rowX.openedMsgs.length ≤ 5 ∧
      (get_messages sFix authPage 100 5 (some false) (some "X") none).map
          (fun pr => (pr.2.success, (pr.2.messages.getD []).length)) =
        Except.ok (some true, (rowX.openedMsgs.filterMap extractKeep).length)) := by
  refine ⟨⟨by decide,
    c7_amended.1 sFix authPage 100 2 (some false) (some "X") none (by decide)⟩,
    ⟨by decide, ?_⟩⟩
  exact c7_amended.2 sFix authPage 100 5 "X" { hasDriver := true } entryX rfl (by decide)
    (by decide) (by decide) rfl (by decide)

/-- C1, counterexample: before any `start_session` (no authentication manager
built), `get_messages` and `send_message` evaluate
`self.auth_manager.check_authentication_status()` outside their `try` blocks,
and the resulting `AttributeError` escapes to the caller instead of a
structured result. -/
theorem c1_counterexample :
    get_messages sNoAuthMgr authPage 100 10 none none none =
      Except.error "AttributeError" ∧
    send_message sNoAuthMgr authPage 100 "X" "hi" = Except.error "AttributeError" :=
  ⟨rfl, rfl⟩

/-- C1, amended: whenever the authentication manager exists, `get_messages`
and `send_message` return a structured dictionary carrying a `success` or
`error` field and let no exception escape — in particular, while not
authenticated both return exactly `\x7b"error": "Not authenticated. ..."\x7d` —
and `get_status` handles even the missing-manager state with a structured
`not_initialized` payload; but before any manager exists, `get_messages` and
`send_message` raise an uncaught `AttributeError`. -/
theorem c1_amended (s : Scraper) (p : PageState) (now limit : Nat)
    (unread : Option Bool) (chat contact : Option String) (chat_name message : String) :
    (s.auth_manager.isSome = true →
      okStructured (get_messages s p now limit unread chat contact) = true ∧
      okStructured (send_message s p now chat_name message) = true) ∧
    (∀ a : AuthMgr, s.auth_manager = some a → check_authentication_status a p = false →
      get_messages s p now limit unread chat contact = Except.ok (s, notAuthenticatedResult) ∧
      send_message s p now chat_name message = Except.ok (s, notAuthenticatedResult)) ∧
    (s.auth_manager = none →
      get_messages s p now limit unread chat contact = Except.error "AttributeError" ∧
      send_message s p now chat_name message = Except.error "AttributeError" ∧
      get_status s p =
        { service := "whatsapp_personal", authenticated := false
          status := "not_initialized", error := some "Managers not initialized" }) := by
  refine ⟨?_, ?_, ?_⟩
  · intro hsome
    rcases Option.isSome_iff_exists.mp hsome with ⟨a, ha⟩
    constructor
    · unfold get_messages
      rw [ha]
      by_cases hauth : check_authentication_status a p
      · simp only [hauth, Bool.not_true, Bool.false_eq_true, if_false]
        cases hdt : determine_target_chat
            (update_chat_cache_if_needed s p now).chat_id_cache chat contact with
        | some target =>
          simp only [hdt]
          exact structured_cached _ target limit unread
        | none =>
          simp only [hdt]
          by_cases hu : unread = some true
          · simp only [hu, if_true]
            exact structured_unread_any _ limit
          · simp only [hu, if_false]
            exact structured_latest_any _ p now limit
      · simp only [Bool.not_eq_true] at hauth
        simp [hauth, okStructured, structuredResult, notAuthenticatedResult, emptyResult]
    · unfold send_message
      rw [ha]
      by_cases hauth : check_authentication_status a p
      · simp only [hauth, Bool.not_true, Bool.false_eq_true, if_false]
        cases hlk : lookupAssoc (force_update_chat_cache s p now).chat_id_cache chat_name with
        | none => simp [hlk, okStructured, structuredResult]
        | some cached_data =>
          simp only [hlk]
          cases hck : cached_data.dom_element.clickOk with
          | false => simp [hck, okStructured, structuredResult]
          | true =>
            simp only [hck, Bool.not_true, Bool.false_eq_true, if_false]
            exact structured_send_to_chat p message
      · simp only [Bool.not_eq_true] at hauth
        simp [hauth, okStructured, structuredResult, notAuthenticatedResult, emptyResult]
  · intro a ha hauth
    constructor
    · unfold get_messages
      rw [ha]
      simp [hauth]
    · unfold send_message
      rw [ha]
      simp [hauth]
  · intro hnone
    refine ⟨?_, ?_, ?_⟩
    · unfold get_messages
      rw [hnone]
    · unfold send_message
      rw [hnone]
    · unfold get_status
      rw [hnone]

/-- Witness for `c1_amended`: structured results on a live-manager state, the
not-authenticated payload on a QR-only page, and the `AttributeError` escape
plus `not_initialized` status on the manager-less state. -/
theorem c1_amended_witness :
    okStructured (get_messages sFix authPage 100 10 none none none) = true ∧
    get_messages sFix unauthPage 100 10 none none none =
      Except.ok (sFix, notAuthenticatedResult) ∧
    get_messages sNoAuthMgr unauthPage 100 10 none none none =
      Except.error "AttributeError" ∧
    get_status sNoAuthMgr unauthPage =
      { service := "whatsapp_personal", authenticated := false
        status := "not_initialized", error := some "Managers not initialized" } := by
  have h1 := c1_amended sFix authPage 100 10 none none none "X" "hi"
  have h2 := c1_amended sFix unauthPage 100 10 none none none "X" "hi"
  have h3 := c1_amended sNoAuthMgr unauthPage 100 10 none none none "X" "hi"
  exact ⟨(h1.1 rfl).1, (h2.2.1 { hasDriver := true } rfl (by decide)).1,
    (h3.2.2 rfl).1, (h3.2.2 rfl).2.2⟩
